import Mathlib

/-!
Verification of the DNS-driven VPN routing engine of the homelab repository.

The development shallowly embeds the relevant code:
* `src/main/src/services/keenetic-client.ts` — the Router Client used by the
  routing engine (`request`, `getRoutes`, `addStaticRoutesForService`,
  `removeRoutesByCommentPrefix`, `getInterfaces`, `getClientByIp`);
* `src/keenetic-api/src/routes/api.ts` — the keenetic-api HTTP handlers
  (`POST /routes`, `DELETE /routes`);
* `src/keenetic-api/src/services/keenetic.service.ts` — the router session
  handling (`ensureAuthenticated`, `performLogin`, `getWithAuth`).

The domain matcher, the route optimizer, the keenetic-api service methods for
route addition/removal and interface resolution are not present in the source
tree (only their callers and documentation are); those are modelled from the
specification, and each such definition is marked `Modelled from the spec:`.
-/

deriving instance DecidableEq for Except

/-! ## Generic string helpers (lists of characters) -/

/-- Lowercase every character of a character list (model of `toLowerCase`). -/
def lowerL (l : List Char) : List Char := l.map Char.toLower

/-- Strip a single trailing dot, the hostname normalization required by the
spec ("hostname with trailing dot must be normalized (stripped)"). -/
def stripTrailingDot (l : List Char) : List Char :=
  if l.getLast? = some '.' then l.dropLast else l

/-- JavaScript `s.startsWith(t)`, as used on route comments. -/
def strStartsWith (s t : String) : Bool := t.data.isPrefixOf s.data

/-- Whether `needle` occurs as a contiguous segment of `hay` (model of
JavaScript `String.prototype.includes`). -/
def segOccurs (needle : List Char) : List Char → Bool
  | [] => needle.isPrefixOf []
  | c :: t => needle.isPrefixOf (c :: t) || segOccurs needle t

/-- JavaScript `s.includes(t)`, as used on error messages. -/
def strContainsSub (s t : String) : Bool := segOccurs t.data s.data

/-! ## Policy model and the Domain Matcher -/

/-- A service routing policy as stored by the Policy Store (the `services`
table of `src/dns-vpn/README.md`): name, egress interfaces, domain patterns,
optimize flag, enabled flag. -/
structure ServicePolicy where
  name : String
  interfaces : List String
  domainPatterns : List String
  optimizeRoutes : Bool
  enabled : Bool
deriving DecidableEq

/-- Modelled from the spec: the Domain Matcher's single-pattern test
(the matcher implementation is absent from the source tree).  A wildcard
pattern `*.d` matches hostnames ending in `.d`; a suffix pattern `.d` matches
`d` itself and hostnames ending in `.d`; any other pattern matches exactly.
Both sides are assumed already lowercased by the caller. -/
def patternMatchesL (pat h : List Char) : Bool :=
  match pat with
  | '*' :: '.' :: d => List.isSuffixOf ('.' :: d) h
  | '.' :: d => h == d || List.isSuffixOf ('.' :: d) h
  | _ => h == pat

/-- Hostname normalization before matching: lowercase, strip trailing dot. -/
def normalizeHostname (h : String) : List Char := stripTrailingDot (lowerL h.data)

/-- Modelled from the spec: the Domain Matcher
`match(hostname, policies) -> list<ServicePolicy>` (implementation absent
from the source tree).  Pure and case-insensitive; disabled policies are
excluded; a policy matches when any of its domain patterns matches the
normalized hostname. -/
def matchHostname (h : String) (ps : List ServicePolicy) : List ServicePolicy :=
  ps.filter (fun p =>
    p.enabled && p.domainPatterns.any (fun pat =>
      patternMatchesL (lowerL pat.data) (normalizeHostname h)))

/-! ## Route Optimizer -/

/-- The optimizer's plan: `/24` network blocks to install (a block `b` covers
the addresses `b*256 .. b*256+255`) and the remaining individual host routes.
IPv4 addresses are modelled as natural numbers below `2^32`. -/
structure RoutePlan where
  networkBlocks : List Nat
  hostRoutes : List Nat
deriving DecidableEq

/-- The `/24` block an address belongs to. -/
def blockOf (ip : Nat) : Nat := ip / 256

/-- Modelled from the spec: a candidate `/24` block may be aggregated only if
every address it covers belongs to the desired set (the hard aggregation-safety
requirement; the optimizer implementation is absent from the source tree). -/
def blockFullyDesired (desired : List Nat) (b : Nat) : Bool :=
  (List.range 256).all (fun k => desired.contains (b * 256 + k))

/-- Modelled from the spec: the blocks the optimizer aggregates — the distinct
blocks of the desired addresses that satisfy `blockFullyDesired`. -/
def aggregateBlocks (desired : List Nat) : List Nat :=
  ((desired.map blockOf).dedup).filter (blockFullyDesired desired)

/-- Modelled from the spec: the Route Optimizer
`optimize(desiredIPs, optimizeEnabled) -> RoutePlan` (implementation absent
from the source tree).  With optimization disabled every desired address stays
a host route; with optimization enabled, fully-desired `/24` blocks become
network routes and their member addresses drop out of the host-route list. -/
def optimize (desired : List Nat) (optimizeEnabled : Bool) : RoutePlan :=
  if optimizeEnabled then
    { networkBlocks := aggregateBlocks desired
      hostRoutes := desired.filter (fun ip => !(aggregateBlocks desired).contains (blockOf ip)) }
  else
    { networkBlocks := [], hostRoutes := desired }

/-! ## Route descriptors and the keenetic-api route operations -/

/-- A static route as exposed by the Router Client
(`RouteInfo` in `src/main/src/services/keenetic-client.ts`). -/
structure RouteInfo where
  network : Option String := none
  mask : Option String := none
  host : Option String := none
  interface : String
  comment : String
  gateway : Option String := none
  metric : Option Nat := none
  auto : Option Bool := none
deriving DecidableEq

/-- The comment tag prefix owning a service's routes,
`dns-auto:{serviceName}:` (Route Comment Format, `src/dns-vpn/README.md`). -/
def tagPfxFor (serviceName : String) : String := "dns-auto:" ++ serviceName ++ ":"

/-- The full comment tag of one engine-managed route,
`dns-auto:{serviceName}:{hostname}`. -/
def routeTag (serviceName hostname : String) : String :=
  tagPfxFor serviceName ++ hostname

/-- Modelled from the spec: the keenetic-api service's bulk route removal
(the service method behind `DELETE /api/routes` is absent from the source
tree).  It removes exactly the routes whose comment starts with the given
comment-prefix string and reports how many were removed; zero matches is a
success, not an error. -/
def removeRoutesMatching (routes : List RouteInfo) (cp : String) :
    List RouteInfo × Nat :=
  (routes.filter (fun r => !(strStartsWith r.comment cp)),
   (routes.filter (fun r => strStartsWith r.comment cp)).length)

/-- Modelled from the spec: one status message per produced route, so that
multi-interface adds can partially fail per route. -/
def routeStatusMessage (h iface comment : String) : String :=
  "route " ++ h ++ " via " ++ iface ++ " (" ++ comment ++ ")"

/-- The (host, interface) pairs a route-add call expands to: one route per
host crossed with every target interface. -/
def routePairs (hosts ifaces : List String) : List (String × String) :=
  match hosts with
  | [] => []
  | h :: t => ifaces.map (fun i => (h, i)) ++ routePairs t ifaces

/-- Modelled from the spec: the keenetic-api service's route addition
(the service method behind `POST /api/routes` is absent from the source
tree).  A call with host list and interface list produces one route per
(host × interface) pair and one status message per resulting route. -/
def addRoutesMessages (hosts ifaces : List String) (comment : String) :
    List String :=
  (routePairs hosts ifaces).map (fun hi => routeStatusMessage hi.1 hi.2 comment)

/-- A network interface as exposed by the Router Client
(`InterfaceInfo` in `src/main/src/services/keenetic-client.ts`). -/
structure InterfaceInfo where
  id : String
  name : String
  type : String
  connected : Bool
deriving DecidableEq

/-- Modelled from the spec: interface resolution
`resolveInterfaceId(nameOrId, defaultFallback) -> id` (the service method is
absent from the source tree; only its callers in
`src/keenetic-api/src/routes/api.ts` are).  The reserved alias `default`
resolves via the configured fallback; a router-native id passes through; a
human name resolves to the id of the matching known interface; an
unresolvable name logs a warning and passes through as-is (fail-soft), so the
operation is total and never raises. -/
def resolveInterfaceId (known : List InterfaceInfo) (fallback : Option String)
    (nameOrId : String) : String :=
  let target := if nameOrId = "default" then fallback.getD nameOrId else nameOrId
  if known.any (fun i => i.id == target) then target
  else
    match known.find? (fun i => i.name == target) with
    | some i => i.id
    | none => target

/-! ## keenetic-api HTTP handlers (`src/keenetic-api/src/routes/api.ts`) -/

/-- Body of a `POST /routes` request after JSON parsing.  `interfaces = none`
models a missing or non-array field; `comment = none` models a missing or
non-string field (the handler separately rejects the falsy empty string). -/
structure PostRoutesBody where
  hosts : List String := []
  network : Option String := none
  mask : Option String := none
  interfaces : Option (List String) := none
  comment : Option String := none
deriving DecidableEq

/-- A call from the HTTP handler into the router-facing service layer. -/
inductive SvcCall where
  | resolveCall (name : String)
  | addRoutesCall (hosts ifaces : List String) (comment : String)
deriving DecidableEq

/-- An HTTP response of the `POST /routes` handler. -/
inductive PostRoutesResponse where
  | badRequest (error : String)
  | ok (messages : List String)
deriving DecidableEq

/-- The `POST /routes` handler of `src/keenetic-api/src/routes/api.ts`:
reject with 400 when `interfaces` is not a non-empty array, then when
`comment` is falsy or not a string; otherwise resolve every interface name
and call the service's route addition.  The first component records, in
order, every call made into the router-facing service layer. -/
def postRoutesHandler (known : List InterfaceInfo) (fallback : Option String)
    (body : PostRoutesBody) : List SvcCall × PostRoutesResponse :=
  match body.interfaces with
  | none => ([], .badRequest "interfaces array is required")
  | some ifaces =>
    if ifaces.isEmpty then ([], .badRequest "interfaces array is required")
    else
      match body.comment with
      | none => ([], .badRequest "comment is required")
      | some c =>
        if c = "" then ([], .badRequest "comment is required")
        else
          let resolved := ifaces.map (resolveInterfaceId known fallback)
          (ifaces.map .resolveCall ++ [.addRoutesCall body.hosts resolved c],
           .ok (addRoutesMessages body.hosts resolved c))

/-- An HTTP response of the `DELETE /routes` handler. -/
inductive DeleteRoutesResponse where
  | badRequest (error : String)
  | ok (success : Bool) (removedCount : Nat)
deriving DecidableEq

/-- The `DELETE /routes` handler of `src/keenetic-api/src/routes/api.ts`:
reject with 400 when `commentPrefix` is falsy or not a string (`none` models
missing/non-string); otherwise remove matching routes and respond
`{ success: true, removedCount }`. -/
def deleteRoutesHandler (routes : List RouteInfo) (body : Option String) :
    DeleteRoutesResponse :=
  match body with
  | none => .badRequest "commentPrefix is required"
  | some cp =>
    if cp = "" then .badRequest "commentPrefix is required"
    else .ok true (removeRoutesMatching routes cp).2

/-! ## The main service's Router Client (`src/main/src/services/keenetic-client.ts`) -/

/-- Outcome of one `fetch` call as observed by `request`: either the fetch
itself rejects (network failure), or an HTTP response arrives with its `ok`
flag, status, status text, body text and — when the body is valid JSON of the
expected shape — the parsed value. -/
inductive FetchOutcome (α : Type) where
  | networkFailure (msg : String)
  | httpResponse (ok : Bool) (status : Nat) (statusText : String)
      (bodyText : String) (parsed : Option α)
deriving DecidableEq

/-- The ways `request` can fail: the `fetch` promise rejected, the response
was not ok (the `throw new Error(...)` branch), or `response.json()` rejected
on a body that is not valid JSON. -/
inductive ClientError where
  | fetchFailed (msg : String)
  | apiError (status : Nat) (statusText : String) (bodyText : String)
  | invalidJson
deriving DecidableEq

/-- The message of the error thrown on a non-ok response:
`Keenetic API error: ${status} ${statusText} - ${text}`. -/
def apiErrorMessage (status : Nat) (statusText bodyText : String) : String :=
  "Keenetic API error: " ++ toString status ++ " " ++ statusText ++ " - " ++ bodyText

/-- The `message` property of each thrown error. -/
def errorMessage : ClientError → String
  | .fetchFailed m => m
  | .apiError s st b => apiErrorMessage s st b
  | .invalidJson => "Unexpected end of JSON input"

/-- The shared `request` helper of the main service's Keenetic client: a
rejected fetch propagates; a non-ok response throws the `Keenetic API error`
message; an ok response yields its parsed JSON body, and throws when the body
fails to parse. -/
def request (out : FetchOutcome α) : Except ClientError α :=
  match out with
  | .networkFailure m => .error (.fetchFailed m)
  | .httpResponse ok status statusText bodyText parsed =>
    if ok then
      match parsed with
      | some v => .ok v
      | none => .error .invalidJson
    else .error (.apiError status statusText bodyText)

/-- Client operation `getRoutes`: `request('GET', '/api/routes')`. -/
def getRoutes (out : FetchOutcome (List RouteInfo)) :
    Except ClientError (List RouteInfo) :=
  request out

/-- Parsed response body of `POST /api/routes`. -/
structure AddRoutesResult where
  success : Bool
  messages : List String
deriving DecidableEq

/-- Client operation `addStaticRoutesForService`: posts hosts, interfaces and
comment, and returns `result.messages` of the parsed response. -/
def addStaticRoutesForService (out : FetchOutcome AddRoutesResult) :
    Except ClientError (List String) :=
  (request out).map (fun r => r.messages)

/-- Parsed response body of `DELETE /api/routes`. -/
structure RemoveRoutesResult where
  success : Bool
  removedCount : Nat
deriving DecidableEq

/-- Client operation `removeRoutesByCommentPrefix`: sends the comment prefix
and returns `result.success` of the parsed response — the removed count in
the response body is discarded. -/
def removeRoutesByCommentPrefix (out : FetchOutcome RemoveRoutesResult) :
    Except ClientError Bool :=
  (request out).map (fun r => r.success)

/-- Client operation `getInterfaces`: `request('GET', '/api/interfaces...')`. -/
def getInterfaces (out : FetchOutcome (List InterfaceInfo)) :
    Except ClientError (List InterfaceInfo) :=
  request out

/-- A LAN client as exposed by the Router Client
(`ClientInfo` in `src/main/src/services/keenetic-client.ts`). -/
structure ClientInfo where
  name : String
  ip : String
  mac : String
  policy : Option String := none
  registered : Option Bool := none
deriving DecidableEq

/-- Client operation `getClientByIp`: on an error whose message contains
`404` it returns `null`; every other error is re-thrown. -/
def getClientByIp (out : FetchOutcome ClientInfo) :
    Except ClientError (Option ClientInfo) :=
  match request out with
  | .ok v => .ok (some v)
  | .error e =>
    if strContainsSub (errorMessage e) "404" then .ok none else .error e

/-- How the keenetic-api `DELETE /routes` response travels back to the main
service's client: a 400 becomes a non-ok response whose body is the error
JSON, a success becomes an ok response with the parsed result. -/
def deleteResponseToFetch : DeleteRoutesResponse → FetchOutcome RemoveRoutesResult
  | .badRequest e =>
    .httpResponse false 400 "Bad Request" ("\x7b\x22error\x22:\x22" ++ e ++ "\x22\x7d") none
  | .ok s c => .httpResponse true 200 "OK" "" (some ⟨s, c⟩)

/-- End-to-end removal as the routing engine sees it: the client sends the
prefix to the keenetic-api handler and interprets the response. -/
def clientRemoveEndToEnd (routes : List RouteInfo) (cp : String) :
    Except ClientError Bool :=
  removeRoutesByCommentPrefix (deleteResponseToFetch (deleteRoutesHandler routes (some cp)))

/-! ## Router session handling (`src/keenetic-api/src/services/keenetic.service.ts`) -/

/-- The router's behaviour during one authenticated operation: the status and
headers it answers the `GET /auth` check with, the status it answers the
login attempt with, and the response of the actual operation request.  Header
fields are `none` when the header is absent. -/
structure AuthEnv where
  authStatus : Nat
  realmHeader : Option String := none
  challengeHeader : Option String := none
  setCookieHeader : Option String := none
  loginStatus : Nat := 401
  opStatus : Nat := 200
  opBody : String := ""
deriving DecidableEq

/-- One HTTP request the service issues against the router, in order. -/
inductive AuthStep where
  | authCheck
  | loginAttempt (realm challenge : String)
  | operationRequest (path : String)
deriving DecidableEq

/-- JavaScript truthiness of a possibly-absent header string: absent and
empty are both falsy. -/
def truthyHeader : Option String → Bool
  | none => false
  | some s => !s.isEmpty

/-- Model of `performLogin(realm, challenge)`: posts the challenge-response
hash and succeeds exactly when the router answers the login with status 200. -/
def performLogin (env : AuthEnv) (_realm _challenge : String) : Bool :=
  env.loginStatus == 200

/-- Model of `ensureAuthenticated()`: checks `GET /auth`; 200 means the session is
active; on 401 it reads the `X-NDM-Realm`/`X-NDM-Challenge` headers, fails
when either is falsy, and otherwise stores the cookies and performs the
challenge-response login with those headers; any other status fails.  The
second component records the requests issued. -/
def ensureAuthenticatedSteps (env : AuthEnv) : Bool × List AuthStep :=
  if env.authStatus == 200 then (true, [.authCheck])
  else if env.authStatus == 401 then
    if truthyHeader env.realmHeader && truthyHeader env.challengeHeader then
      match env.realmHeader, env.challengeHeader with
      | some r, some c => (performLogin env r c, [.authCheck, .loginAttempt r c])
      | _, _ => (false, [.authCheck])
    else (false, [.authCheck])
  else (false, [.authCheck])

/-- Model of `getWithAuth(path)`: runs `ensureAuthenticated` (its boolean
result is ignored) and then issues the operation request, returning that response. -/
def getWithAuth (env : AuthEnv) (path : String) :
    (Nat × String) × List AuthStep :=
  ((env.opStatus, env.opBody),
   (ensureAuthenticatedSteps env).2 ++ [.operationRequest path])

/-! ## Concrete inputs used by witnesses and counterexamples -/

/-- The spec's scenario policy: service `stream`, interface `wg0`, wildcard
pattern `*.stream.example.com`. -/
def pStream : ServicePolicy :=
  { name := "stream", interfaces := ["wg0"],
    domainPatterns := ["*.stream.example.com"],
    optimizeRoutes := true, enabled := true }

/-- The spec's `RouterUnavailable` error kind, per its words: a network/auth
failure reaching the router — the `fetch` call itself rejected. -/
def specRouterUnavailable : ClientError → Bool
  | .fetchFailed _ => true
  | _ => false

/-- The spec's `RouterRejected` error kind, per its words: the router answered
the operation with an explicit rejection — a non-ok HTTP response. -/
def specRouterRejected : ClientError → Bool
  | .apiError _ _ _ => true
  | _ => false

/-! ## Shared lemmas -/

/-- If `'.' :: d` is a suffix of `h` then `h` is strictly longer than `d`,
so a hostname ending in `.d` is never the bare domain `d`. -/
lemma ne_of_dot_suffix {d h : List Char} (hs : ('.' :: d) <:+ h) :
    h ≠ d := by
  intro he
  have hle := hs.length_le
  rw [he] at hle
  simp at hle

/-- Two colon-free words followed by a colon: if one, extended by a colon, is
a prefix of the other followed by a colon and more, the words are equal. -/
lemma colonFree_prefix_eq {A : List Char} :
    ∀ {B rest : List Char}, ':' ∉ A → ':' ∉ B →
      (A ++ [':']) <+: (B ++ ':' :: rest) → A = B := by
  induction A with
  | nil =>
    intro B rest _ hB hpre
    cases B with
    | nil => rfl
    | cons b B' =>
      rcases (List.cons_prefix_cons.mp hpre) with ⟨hcb, -⟩
      exact absurd (hcb ▸ List.mem_cons_self b B') hB
  | cons a A' ih =>
    intro B rest hA hB hpre
    cases B with
    | nil =>
      rcases (List.cons_prefix_cons.mp hpre) with ⟨hca, -⟩
      exact absurd (hca.symm ▸ List.mem_cons_self a A') hA
    | cons b B' =>
      rcases (List.cons_prefix_cons.mp hpre) with ⟨hab, htail⟩
      have hAB : A' = B' :=
        ih (fun hm => hA (List.mem_cons_of_mem _ hm))
           (fun hm => hB (List.mem_cons_of_mem _ hm)) htail
      rw [hab, hAB]

/-- The character data of a service's comment-tag prefix. -/
lemma tagPfxFor_data (s : String) :
    (tagPfxFor s).data = "dns-auto:".data ++ (s.data ++ [':']) := by
  simp [tagPfxFor, String.data_append]

/-- Distinct colon-free service names have non-overlapping comment-tag
prefixes: no comment starts with both. -/
lemma tagPfx_no_cross {A B c : String}
    (hA : ':' ∉ A.data) (hB : ':' ∉ B.data) (hne : A ≠ B)
    (hcB : strStartsWith c (tagPfxFor B) = true) :
    strStartsWith c (tagPfxFor A) = false := by
  cases hT : strStartsWith c (tagPfxFor A) with
  | false => rfl
  | true =>
    exfalso
    rw [strStartsWith, List.isPrefixOf_iff_prefix] at hT hcB
    rcases hcB with ⟨t, ht⟩
    rw [tagPfxFor_data] at ht hT
    rw [← ht, List.append_assoc, List.prefix_append_right_inj] at hT
    have hshape : (B.data ++ [':']) ++ t = B.data ++ ':' :: t := by simp
    rw [hshape] at hT
    exact hne (String.ext (colonFree_prefix_eq hA hB hT))

/-- A comment starting with a service tag prefix starts with `dns-auto:`. -/
lemma dnsAuto_of_tagPfx {c A : String}
    (h : strStartsWith c (tagPfxFor A) = true) :
    strStartsWith c "dns-auto:" = true := by
  rw [strStartsWith, List.isPrefixOf_iff_prefix] at h ⊢
  have hpre : "dns-auto:".data <+: (tagPfxFor A).data := by
    rw [tagPfxFor_data]; exact List.prefix_append _ _
  exact hpre.trans h

/-- A route-add call produces exactly `hosts × interfaces` route pairs. -/
lemma routePairs_length (hosts ifaces : List String) :
    (routePairs hosts ifaces).length = hosts.length * ifaces.length := by
  induction hosts with
  | nil => simp [routePairs]
  | cons h t ih => simp [routePairs, ih, Nat.succ_mul, Nat.add_comm]

/-- Membership in the produced route pairs is exactly pairwise membership. -/
lemma mem_routePairs {h i : String} {hosts ifaces : List String} :
    (h, i) ∈ routePairs hosts ifaces ↔ (h ∈ hosts ∧ i ∈ ifaces) := by
  induction hosts with
  | nil => simp [routePairs]
  | cons h' t ih =>
    simp [routePairs, ih]
    tauto

/-! ## Claim theorems -/

/-- Claim C1: for every hostname and every enabled policy, a wildcard pattern
`*.d` matches exactly the hostnames ending in `.d` (never the bare domain
`d`), a suffix pattern `.d` matches exactly `d` itself and hostnames ending
in `.d`, and matching is case-insensitive (hostnames equal up to case match
the same policies). -/
theorem domainMatcher_wildcard_suffix_correct
    (h : String) (d : List Char) (p : ServicePolicy) (ps : List ServicePolicy)
    (hen : p.enabled = true) (hmem : p ∈ ps) :
    (∀ pat, p.domainPatterns = [pat] → lowerL pat.data = '*' :: '.' :: d →
      (p ∈ matchHostname h ps ↔
        (('.' :: d) <:+ normalizeHostname h ∧ normalizeHostname h ≠ d)))
    ∧ (∀ pat, p.domainPatterns = [pat] → lowerL pat.data = '.' :: d →
      (p ∈ matchHostname h ps ↔
        (normalizeHostname h = d ∨ ('.' :: d) <:+ normalizeHostname h)))
    ∧ (∀ h₂ : String, lowerL h.data = lowerL h₂.data →
        matchHostname h ps = matchHostname h₂ ps) := by
  refine ⟨?_, ?_, ?_⟩
  · intro pat hpat hlow
    rw [matchHostname, List.mem_filter, hpat]
    simp [hen, hmem, hlow, patternMatchesL]
    exact fun hs => ne_of_dot_suffix hs
  · intro pat hpat hlow
    rw [matchHostname, List.mem_filter, hpat]
    simp [hen, hmem, hlow, patternMatchesL]
  · intro h₂ he
    simp only [matchHostname, normalizeHostname, he]

/-- Witness for C1: the spec's scenario — `cdn.stream.example.com` matches
the `stream` policy with wildcard pattern `*.stream.example.com`. -/
theorem domainMatcher_wildcard_suffix_correct_witness :
    pStream ∈ matchHostname "cdn.stream.example.com" [pStream] :=
  ((domainMatcher_wildcard_suffix_correct "cdn.stream.example.com"
      "stream.example.com".data pStream [pStream] rfl (by decide)).1
    "*.stream.example.com" rfl (by decide)).mpr (by decide)

/-- Claim C2: aggregation safety — with optimization enabled, every network
block in the optimizer's plan covers only addresses of the desired set (no
covered address lies outside it). -/
theorem optimizer_aggregation_safety
    (desired : List Nat) (b ip : Nat)
    (hb : b ∈ (optimize desired true).networkBlocks)
    (hip : blockOf ip = b) :
    ip ∈ desired := by
  have hagg : b ∈ aggregateBlocks desired := by
    simpa [optimize] using hb
  have hfull : blockFullyDesired desired b = true :=
    (List.mem_filter.mp hagg).2
  have hall := (List.all_eq_true.mp hfull) (ip % 256) (by
    simp [List.mem_range]
    exact Nat.mod_lt _ (by omega))
  have heq : b * 256 + ip % 256 = ip := by
    have hdm := Nat.div_add_mod ip 256
    rw [blockOf] at hip
    omega
  rw [heq] at hall
  simpa using hall

set_option maxRecDepth 4096 in
/-- Witness for C2: the desired set `0..255` yields the aggregated block `0`,
and address `7` of that block is in the desired set. -/
theorem optimizer_aggregation_safety_witness :
    (0 ∈ (optimize (List.range 256) true).networkBlocks ∧ blockOf 7 = 0) ∧
    7 ∈ List.range 256 :=
  have hb : 0 ∈ (optimize (List.range 256) true).networkBlocks := by decide
  ⟨⟨hb, rfl⟩, optimizer_aggregation_safety (List.range 256) 0 7 hb rfl⟩

/-- Claim C3 (amended: service names must be colon-free): removing service
A's routes by its comment-tag prefix leaves untouched every route tagged for
a distinct service B and every route without a `dns-auto:` tag, whatever IP
or interface the routes target. -/
theorem tag_isolation_colon_free
    (routes : List RouteInfo) (A B : String)
    (hA : ':' ∉ A.data) (hB : ':' ∉ B.data) (hne : A ≠ B)
    (r : RouteInfo) (hr : r ∈ routes)
    (hTag : strStartsWith r.comment (tagPfxFor B) = true ∨
            strStartsWith r.comment "dns-auto:" = false) :
    r ∈ (removeRoutesMatching routes (tagPfxFor A)).1 := by
  rw [removeRoutesMatching]
  rw [List.mem_filter]
  refine ⟨hr, ?_⟩
  have hfalse : strStartsWith r.comment (tagPfxFor A) = false := by
    rcases hTag with hTagB | hNoTag
    · exact tagPfx_no_cross hA hB hne hTagB
    · cases hT : strStartsWith r.comment (tagPfxFor A) with
      | false => rfl
      | true => rw [dnsAuto_of_tagPfx hT] at hNoTag; exact absurd hNoTag (by simp)
  rw [hfalse]
  rfl

/-- Counterexample for C3 as stated: for the distinct service names `a` and
`a:b`, the route tagged for service `a:b` (comment `dns-auto:a:b:h1`) is
removed by a removal for service `a`, because `dns-auto:a:` is a string
prefix of `dns-auto:a:b:h1`. -/
theorem tag_isolation_counterexample :
    ("a" : String) ≠ "a:b" ∧
    strStartsWith (routeTag "a:b" "h1") (tagPfxFor "a:b") = true ∧
    (removeRoutesMatching
      [{ interface := "wg0", comment := routeTag "a:b" "h1" }]
      (tagPfxFor "a")).1 = [] := by
  decide

/-- Witness for C3: removing service `a`'s routes keeps service `b`'s route. -/
theorem tag_isolation_witness :
    ({ interface := "wg1", comment := routeTag "b" "h2" } : RouteInfo) ∈
      (removeRoutesMatching
        [{ interface := "wg0", comment := routeTag "a" "h1" },
         { interface := "wg1", comment := routeTag "b" "h2" },
         { interface := "wg2", comment := "manual route" }]
        (tagPfxFor "a")).1 :=
  tag_isolation_colon_free _ "a" "b" (by decide) (by decide) (by decide) _
    (by decide) (Or.inl (by decide))

/-- Claim C4 (amended: the count is reported by the HTTP API, not returned by
the main-service client): for any non-empty prefix the `DELETE /routes`
handler succeeds and reports the removed count in its response body — zero
matches succeeds with count 0 — while the main service's client returns only
the success boolean. -/
theorem removeRoutes_idempotent_api_count
    (routes : List RouteInfo) (cp : String) (hcp : cp ≠ "") :
    deleteRoutesHandler routes (some cp) =
      .ok true (removeRoutesMatching routes cp).2
    ∧ clientRemoveEndToEnd routes cp = .ok true
    ∧ ((removeRoutesMatching routes cp).2 = 0 →
        deleteRoutesHandler routes (some cp) = .ok true 0) := by
  have hh : deleteRoutesHandler routes (some cp) =
      .ok true (removeRoutesMatching routes cp).2 := by
    simp [deleteRoutesHandler, hcp]
  refine ⟨hh, ?_, ?_⟩
  · rw [clientRemoveEndToEnd, hh]
    rfl
  · intro h0
    rw [hh, h0]

/-- Witness for C4: removal with zero matching routes succeeds with count 0. -/
theorem removeRoutes_idempotent_witness :
    deleteRoutesHandler [] (some "dns-auto:x:") = .ok true 0 :=
  (removeRoutes_idempotent_api_count [] "dns-auto:x:" (by decide)).2.2 (by decide)

/-- Counterexample for C4 as stated: the main service's
`removeRoutesByCommentPrefix` returns the same value for a table where two
routes are removed and for one where zero are, so its return value is not the
count of routes removed. -/
theorem removeRoutes_count_counterexample :
    clientRemoveEndToEnd
        [{ interface := "wg0", comment := "dns-auto:a:h1" },
         { interface := "wg1", comment := "dns-auto:a:h2" }] "dns-auto:a:"
      = clientRemoveEndToEnd [] "dns-auto:a:"
    ∧ (removeRoutesMatching
        [{ interface := "wg0", comment := "dns-auto:a:h1" },
         { interface := "wg1", comment := "dns-auto:a:h2" }] "dns-auto:a:").2 = 2
    ∧ (removeRoutesMatching ([] : List RouteInfo) "dns-auto:a:").2 = 0 := by
  decide

/-- Claim C5: a route-add call with `n` hosts and `m` interfaces produces one
route per (host × interface) pair — `n*m` pairs, exactly the pairwise
memberships — and one status message per resulting route. -/
theorem addRoutes_one_message_per_pair
    (hosts ifaces : List String) (comment : String) :
    (routePairs hosts ifaces).length = hosts.length * ifaces.length
    ∧ (addRoutesMessages hosts ifaces comment).length =
        hosts.length * ifaces.length
    ∧ ∀ h i, (h, i) ∈ routePairs hosts ifaces ↔ (h ∈ hosts ∧ i ∈ ifaces) := by
  refine ⟨routePairs_length hosts ifaces, ?_, ?_⟩
  · rw [addRoutesMessages, List.length_map, routePairs_length]
  · intro h i
    exact mem_routePairs

/-- Claim C6 (amended: a success response whose body fails to parse raises a
third, parse-failure error): every Router Client operation fails either with
the network-failure kind (`RouterUnavailable` — the fetch rejected), or with
the non-ok-response kind (`RouterRejected` — the API rejected the request),
or — only for an ok response with an unparsable body — with the JSON parse
error; and each listed operation fails exactly when the shared `request`
helper fails, with the same error. -/
theorem routerClient_error_kinds
    (out : FetchOutcome α) (e : ClientError) (he : request out = .error e) :
    ((specRouterUnavailable e = true ∧ ∃ m, out = .networkFailure m)
      ∨ (specRouterRejected e = true ∧
          ∃ s st b p, out = .httpResponse false s st b p)
      ∨ (e = .invalidJson ∧ ∃ s st b, out = .httpResponse true s st b none))
    ∧ (∀ o : FetchOutcome (List RouteInfo), getRoutes o = request o)
    ∧ (∀ o : FetchOutcome AddRoutesResult,
        addStaticRoutesForService o = .error e ↔ request o = .error e)
    ∧ (∀ o : FetchOutcome RemoveRoutesResult,
        removeRoutesByCommentPrefix o = .error e ↔ request o = .error e)
    ∧ (∀ o : FetchOutcome (List InterfaceInfo), getInterfaces o = request o) := by
  refine ⟨?_, fun o => rfl, ?_, ?_, fun o => rfl⟩
  · cases out with
    | networkFailure m =>
      left
      simp only [request, Except.error.injEq] at he
      subst he
      exact ⟨rfl, m, rfl⟩
    | httpResponse ok s st b parsed =>
      cases ok with
      | true =>
        cases parsed with
        | some v => simp [request] at he
        | none =>
          right; right
          simp only [request, if_true, Except.error.injEq] at he
          subst he
          exact ⟨rfl, s, st, b, rfl⟩
      | false =>
        right; left
        simp only [request, Bool.false_eq_true, if_false, Except.error.injEq] at he
        subst he
        exact ⟨rfl, s, st, b, parsed, rfl⟩
  · intro o
    rw [addStaticRoutesForService]
    cases request o <;> simp [Except.map]
  · intro o
    rw [ removeRoutesByCommentPrefix]
    cases request o <;> simp [Except.map]

/-- Witness for C6: a rejected fetch is the `RouterUnavailable` kind. -/
theorem routerClient_error_kinds_witness :
    specRouterUnavailable (.fetchFailed "connect ECONNREFUSED") = true ∧
    ∃ m, (FetchOutcome.networkFailure (α := List RouteInfo) "connect ECONNREFUSED")
      = FetchOutcome.networkFailure m := by
  have h := (routerClient_error_kinds
    (FetchOutcome.networkFailure (α := List RouteInfo) "connect ECONNREFUSED")
    (.fetchFailed "connect ECONNREFUSED") rfl).1
  rcases h with h | ⟨-, s, st, b, p, hout⟩ | ⟨-, s, st, b, hout⟩
  · exact h
  · simp at hout
  · simp at hout

/-- Counterexample for C6 as stated: an ok (HTTP 200) response whose body is
not valid JSON makes `getRoutes` fail with the parse error, which is neither
the `RouterUnavailable` kind nor the `RouterRejected` kind. -/
theorem routerClient_error_kinds_counterexample :
    getRoutes (.httpResponse true 200 "OK" "not json" none) =
      .error .invalidJson
    ∧ specRouterUnavailable .invalidJson = false
    ∧ specRouterRejected .invalidJson = false := by
  decide

/-- Claim C7: an interface name that is neither the `default` alias nor a
known interface id nor a known interface name is not an error —
`resolveInterfaceId` returns the input unchanged (fail-soft pass-through;
being a total function it never raises). -/
theorem resolveInterfaceId_fail_soft
    (known : List InterfaceInfo) (fallback : Option String) (nameOrId : String)
    (hdef : nameOrId ≠ "default")
    (hid : known.any (fun i => i.id == nameOrId) = false)
    (hname : known.find? (fun i => i.name == nameOrId) = none) :
    resolveInterfaceId known fallback nameOrId = nameOrId := by
  simp [resolveInterfaceId, hdef, hid, hname]

/-- Witness for C7: the unknown name `tun9` passes through unchanged. -/
theorem resolveInterfaceId_fail_soft_witness :
    resolveInterfaceId
      [{ id := "Wireguard0", name := "wg-home", type := "Wireguard", connected := true }]
      (some "Wireguard0") "tun9" = "tun9" :=
  resolveInterfaceId_fail_soft _ _ _ (by decide) (by decide) (by decide)

/-- Claim C8: an authenticated router operation first issues the `GET /auth`
session check; when the router answers 401 with truthy realm and challenge
headers it performs the challenge-response login with exactly those header
values before issuing the operation request; and the caller always observes
exactly the operation's own response, never authentication details. -/
theorem auth_reauth_on_401_before_operation
    (env : AuthEnv) (path : String) :
    ((env.authStatus = 200 →
        (getWithAuth env path).2 = [.authCheck, .operationRequest path])
    ∧ (∀ r c, env.authStatus = 401 → env.realmHeader = some r → r ≠ "" →
        env.challengeHeader = some c → c ≠ "" →
        (getWithAuth env path).2 =
          [.authCheck, .loginAttempt r c, .operationRequest path]
        ∧ (ensureAuthenticatedSteps env).1 = performLogin env r c)
    ∧ (getWithAuth env path).1 = (env.opStatus, env.opBody)) := by
  refine ⟨?_, ?_, rfl⟩
  · intro h200
    simp [getWithAuth, ensureAuthenticatedSteps, h200]
  · intro r c h401 hr hrne hc hcne
    have hre : r.isEmpty = false := by
      cases he : r.isEmpty
      · rfl
      · exact absurd ((String.isEmpty_iff r).mp he) hrne
    have hce : c.isEmpty = false := by
      cases he : c.isEmpty
      · rfl
      · exact absurd ((String.isEmpty_iff c).mp he) hcne
    constructor
    · simp [getWithAuth, ensureAuthenticatedSteps, h401, hr, hc, truthyHeader, hre, hce]
    · simp [ensureAuthenticatedSteps, h401, hr, hc, truthyHeader, hre, hce]

/-- Claim C9: a `POST /routes` body lacking a non-empty interfaces array or
lacking a string comment is answered 400 with no service-layer call at all
(no interface resolution, no route addition); and any request that does reach
the service layer had a non-empty interfaces array and a string comment. -/
theorem postRoutes_validation_gate
    (known : List InterfaceInfo) (fallback : Option String)
    (body : PostRoutesBody) :
    ((body.interfaces = none ∨ body.interfaces = some [] ∨ body.comment = none) →
      (postRoutesHandler known fallback body).1 = []
      ∧ ∃ m, (postRoutesHandler known fallback body).2 = .badRequest m)
    ∧ ((postRoutesHandler known fallback body).1 ≠ [] →
      ∃ ifaces c, body.interfaces = some ifaces ∧ ifaces ≠ [] ∧
        body.comment = some c) := by
  cases hI : body.interfaces with
  | none => simp [postRoutesHandler, hI]
  | some ifaces =>
    cases hIe : ifaces.isEmpty with
    | true =>
      have hnil : ifaces = [] := List.isEmpty_iff.mp hIe
      subst hnil
      simp [postRoutesHandler, hI]
    | false =>
      have hine : ifaces ≠ [] := by
        intro he; subst he; simp at hIe
      cases hC : body.comment with
      | none => simp [postRoutesHandler, hI, hIe, hC]
      | some c =>
        constructor
        · rintro (h | h | h)
          · simp [hI] at h
          · simp [hI] at h
            subst h
            simp at hIe
          · simp [hC] at h
        · intro _
          exact ⟨ifaces, c, rfl, hine, rfl⟩

/-- Claim C10: `getClientByIp` answers `null` exactly when the underlying
call failed with an error whose message contains `404`; every other error is
re-thrown unchanged, and a success yields the client. -/
theorem getClientByIp_null_iff_404 (out : FetchOutcome ClientInfo) :
    (getClientByIp out = .ok none ↔
      ∃ e, request out = .error e ∧
        strContainsSub (errorMessage e) "404" = true)
    ∧ (∀ e, request out = .error e →
        strContainsSub (errorMessage e) "404" = false →
        getClientByIp out = .error e)
    ∧ (∀ v, request out = .ok v → getClientByIp out = .ok (some v)) := by
  refine ⟨?_, ?_, ?_⟩
  · constructor
    · intro hok
      rw [getClientByIp] at hok
      cases hreq : request out with
      | ok v => rw [hreq] at hok; simp at hok
      | error e =>
        rw [hreq] at hok
        cases h4 : strContainsSub (errorMessage e) "404" with
        | true => exact ⟨e, rfl, h4⟩
        | false => simp [h4] at hok
    · rintro ⟨e, he, h4⟩
      rw [getClientByIp, he]
      simp [h4]
  · intro e he hf
    rw [getClientByIp, he]
    simp [hf]
  · intro v hv
    rw [getClientByIp, hv]
